import Mathlib

/-!
Verification development for the factorio-prometheus-exporter repository.

The Python sources are shallowly embedded:

* `src/exporter.py` — the monolithic file-based collector (`FactorioCollector`):
  JSON snapshots become the inductive `Json`, Python dict indexing with its
  `KeyError` / `TypeError` behaviour becomes `Json.index` over an `Except`
  monad, each `__collect_*` generator becomes a function returning the list
  of metric families it yields (or the Python exception that aborts it), and
  the top-level `collect` generator is modelled with its prefix-of-yields
  semantics: the families yielded before an uncaught exception, together with
  the exception, are the observable outcome of one scrape.
* `src/collection/collectors.py` — the grouped RCON-based collectors
  (`FactorioCommander`, `FactorioAutopauser`, `FactorioTimeCollector`,
  `FactorioPlayerCollector`), with `datetime.timedelta` modelled by its
  normalised (days, seconds, microseconds) components.

Python dicts are modelled as association lists in insertion order, which is
exactly the iteration order `dict.items()` guarantees.
-/

namespace Factorio

/-- Errors raised by the Python translation code while indexing into the
parsed snapshot: `KeyError` for a missing dict key, and a catch-all
`typeError` for indexing / iterating a non-dict value. -/
inductive PyErr where
  | keyError (k : String)
  | typeError
deriving DecidableEq

/-- Parsed JSON documents, as produced by `json.load` in
`FactorioCollector.__load_metrics_data`.  Objects keep their fields as an
association list in insertion order (Python dicts preserve it). -/
inductive Json where
  | num (v : Rat)
  | bool (b : Bool)
  | str (s : String)
  | obj (fields : List (String × Json))

/-- Python `d[k]` on a parsed JSON value: a `KeyError` on a missing key of an
object, a `TypeError` when the value is not an object. -/
def Json.index (j : Json) (k : String) : Except PyErr Json :=
  match j with
  | .obj fields =>
    match fields.lookup k with
    | some v => Except.ok v
    | none => Except.error (PyErr.keyError k)
  | _ => Except.error PyErr.typeError

/-- Python `d.items()`: the key/value pairs of an object in insertion order. -/
def Json.entries (j : Json) : Except PyErr (List (String × Json)) :=
  match j with
  | .obj fields => Except.ok fields
  | _ => Except.error PyErr.typeError

/-- Python `for k in d`: the keys of an object in insertion order. -/
def Json.keysList (j : Json) : Except PyErr (List String) :=
  match j with
  | .obj fields => Except.ok (fields.map Prod.fst)
  | _ => Except.error PyErr.typeError

/-- Python `int(x)` as applied to the `connected` flag in
`__collect_player_state_metrics`: booleans become 0/1, numbers are truncated
towards zero is irrelevant here so floor is used for the integral part, and
anything else raises. -/
def Json.pyInt (j : Json) : Except PyErr Json :=
  match j with
  | .bool b => Except.ok (Json.num (if b then 1 else 0))
  | .num v => Except.ok (Json.num (Rat.floor v))
  | _ => Except.error PyErr.typeError

/-- The kind of a Prometheus metric family. -/
inductive MetricKind where
  | gauge
  | counter
deriving DecidableEq

/-- A `GaugeMetricFamily` / `CounterMetricFamily` as built by the collectors:
a name, a kind, the declared label keys, and the samples added with
`add_metric` — each a list of label values (positional, in the declared key
order) together with the raw value.  A family built with `value=` is a
family with no declared labels and a single sample with an empty label
tuple, which is what the prometheus client does. -/
structure MetricFamily where
  name : String
  kind : MetricKind
  labels : List String
  samples : List (List String × Json)

/-- Sequencing of a Python `for` loop that may raise: map `f` over the list
left to right, stopping at the first exception. -/
def exMapM {α β : Type} (f : α → Except PyErr β) : List α → Except PyErr (List β)
  | [] => Except.ok []
  | a :: l => do
    let b ← f a
    let bs ← exMapM f l
    pure (b :: bs)

/-! ## The monolithic collector of `src/exporter.py` -/

/-- `FactorioCollector.__get_exporter_error_metric`: the health gauge, with
value `int(not successful)`. -/
def getExporterErrorMetric (successful : Bool) : MetricFamily :=
  { name := "factorio_exporter_error"
    kind := MetricKind.gauge
    labels := []
    samples := [([], Json.num (if successful then 0 else 1))] }

/-- `FactorioCollector.__collect_time_metrics`. -/
def collectTimeMetrics (d : Json) : Except PyErr (List MetricFamily) := do
  let game ← d.index "game"
  let time ← game.index "time"
  let tick ← time.index "tick"
  pure [{ name := "factorio_game_tick"
          kind := MetricKind.gauge
          labels := []
          samples := [([], tick)] }]

/-- `FactorioCollector.__collect_player_state_metrics`. -/
def collectPlayerStateMetrics (d : Json) : Except PyErr (List MetricFamily) := do
  let players ← d.index "players"
  let entries ← players.entries
  let samples ← exMapM (fun e => do
    let connected ← e.2.index "connected"
    let v ← connected.pyInt
    pure ([e.1], v)) entries
  pure [{ name := "factorio_player_connected"
          kind := MetricKind.gauge
          labels := ["username"]
          samples := samples }]

/-- The body of the innermost loop of `FactorioCollector.__collect_force_metrics`
for one `(type_name, prototypes)` entry of one force on one surface.  It
produces the samples this iteration appends to the consumption family, the
production family and the research family, in that order. -/
def collectForceType (forceName : String) (forceData : Json) (surfaceName : String)
    (typeName : String) (prototypes : Json) :
    Except PyErr (List (List String × Json) × List (List String × Json) ×
      List (List String × Json)) := do
  let res ←
    if typeName == "research" then do
      let research ← forceData.index "research"
      let progress ← research.index "progress"
      pure [([forceName], progress)]
    else
      pure []
  if typeName == "fluids" || typeName == "items" then do
    let surfaceProtos ← prototypes.index surfaceName
    let protoEntries ← surfaceProtos.entries
    let pairs ← exMapM (fun pe => do
      let c ← pe.2.index "consumption"
      let p ← pe.2.index "production"
      pure (([forceName, pe.1, surfaceName, typeName], c),
            ([forceName, pe.1, surfaceName, typeName], p))) protoEntries
    pure (pairs.map Prod.fst, pairs.map (fun x => x.2), res)
  else
    pure ([], [], res)

/-- The `for type_name, prototypes in force_data.items()` loop of
`__collect_force_metrics` for one force on one surface. -/
def collectForceOne (surfaceName forceName : String) (forceData : Json) :
    Except PyErr (List (List String × Json) × List (List String × Json) ×
      List (List String × Json)) := do
  let types ← forceData.entries
  let parts ← exMapM (fun tp => collectForceType forceName forceData surfaceName tp.1 tp.2) types
  pure ((parts.map (fun x => x.1)).flatten,
        (parts.map (fun x => x.2.1)).flatten,
        (parts.map (fun x => x.2.2)).flatten)

/-- The `for force_name, force_data in self.metrics_data["forces"].items()`
loop of `__collect_force_metrics` for one surface; note the Python code
re-reads `self.metrics_data["forces"]` on every surface iteration. -/
def collectForceSurface (d : Json) (surfaceName : String) :
    Except PyErr (List (List String × Json) × List (List String × Json) ×
      List (List String × Json)) := do
  let forces ← d.index "forces"
  let forceEntries ← forces.entries
  let parts ← exMapM (fun fp => collectForceOne surfaceName fp.1 fp.2) forceEntries
  pure ((parts.map (fun x => x.1)).flatten,
        (parts.map (fun x => x.2.1)).flatten,
        (parts.map (fun x => x.2.2)).flatten)

/-- `FactorioCollector.__collect_force_metrics`: iterate the keys of the
top-level `surfaces` object, and inside that loop the forces and their typed
sub-objects, accumulating into the consumption, production and research
families, which are yielded at the end. -/
def collectForceMetrics (d : Json) : Except PyErr (List MetricFamily) := do
  let surfaces ← d.index "surfaces"
  let surfaceKeys ← surfaces.keysList
  let parts ← exMapM (collectForceSurface d) surfaceKeys
  pure [{ name := "factorio_force_prototype_consumption"
          kind := MetricKind.counter
          labels := ["force", "prototype", "surface", "type"]
          samples := (parts.map (fun x => x.1)).flatten },
        { name := "factorio_force_prototype_production"
          kind := MetricKind.counter
          labels := ["force", "prototype", "surface", "type"]
          samples := (parts.map (fun x => x.2.1)).flatten },
        { name := "factorio_force_research_progress"
          kind := MetricKind.gauge
          labels := ["force"]
          samples := (parts.map (fun x => x.2.2)).flatten }]

/-- `FactorioCollector.__collect_pollution_metrics`. -/
def collectPollutionMetrics (d : Json) : Except PyErr (List MetricFamily) := do
  let pollution ← d.index "pollution"
  let surfaceEntries ← pollution.entries
  let samples ← exMapM (fun se => do
    let entityEntries ← se.2.entries
    pure (entityEntries.map (fun ee => ([ee.1, se.1], ee.2)))) surfaceEntries
  pure [{ name := "factorio_pollution_production"
          kind := MetricKind.gauge
          labels := ["source", "surface"]
          samples := samples.flatten }]

/-- `FactorioCollector.__collect_surface_metrics`. -/
def collectSurfaceMetrics (d : Json) : Except PyErr (List MetricFamily) := do
  let surfaces ← d.index "surfaces"
  let surfaceEntries ← surfaces.entries
  let pairs ← exMapM (fun se => do
    let pol ← se.2.index "pollution"
    let tpd ← se.2.index "ticks_per_day"
    pure (([se.1], pol), ([se.1], tpd))) surfaceEntries
  pure [{ name := "factorio_surface_pollution_total"
          kind := MetricKind.gauge
          labels := ["surface"]
          samples := pairs.map Prod.fst },
        { name := "factorio_surface_ticks_per_day"
          kind := MetricKind.gauge
          labels := ["surface"]
          samples := pairs.map (fun x => x.2) }]

/-- `FactorioCollector.__collect_entity_metrics`: note the hard-coded
`"player"` force label value. -/
def collectEntityMetrics (d : Json) : Except PyErr (List MetricFamily) := do
  let surfaces ← d.index "surfaces"
  let surfaceEntries ← surfaces.entries
  let samples ← exMapM (fun se => do
    let ents ← se.2.index "entities"
    let entityEntries ← ents.entries
    pure (entityEntries.map (fun ee => (["player", ee.1, se.1], ee.2)))) surfaceEntries
  pure [{ name := "factorio_entity_count"
          kind := MetricKind.gauge
          labels := ["force", "name", "surface"]
          samples := samples.flatten }]

/-- `FactorioCollector.__collect_rocket_metrics`: reads only the `"player"`
entry of the forces map and hard-codes the `"player"` force label value. -/
def collectRocketMetrics (d : Json) : Except PyErr (List MetricFamily) := do
  let forces ← d.index "forces"
  let playerForce ← forces.index "player"
  let rockets ← playerForce.index "rockets"
  let launches ← rockets.index "launches"
  let forces2 ← d.index "forces"
  let playerForce2 ← forces2.index "player"
  let rockets2 ← playerForce2.index "rockets"
  let itemsObj ← rockets2.index "items"
  let itemEntries ← itemsObj.entries
  pure [{ name := "factorio_rockets_launched"
          kind := MetricKind.gauge
          labels := ["force"]
          samples := [(["player"], launches)] },
        { name := "factorio_items_launched"
          kind := MetricKind.gauge
          labels := ["force", "name"]
          samples := itemEntries.map (fun ie => (["player", ie.1], ie.2)) }]

/-- The seven group generators delegated to by `FactorioCollector.collect`,
in the order they are invoked. -/
def groupCollectors : List (Json → Except PyErr (List MetricFamily)) :=
  [collectTimeMetrics, collectPlayerStateMetrics, collectForceMetrics,
   collectPollutionMetrics, collectSurfaceMetrics, collectEntityMetrics,
   collectRocketMetrics]

/-- Run a sequence of group generators the way the `yield from` chain in
`FactorioCollector.collect` does: families of each successful group are
yielded in order; the first uncaught exception aborts the generator, keeping
the families already yielded. -/
def runGroupsAux (d : Json) : List (Json → Except PyErr (List MetricFamily)) →
    List MetricFamily × Option PyErr
  | [] => ([], none)
  | g :: gs =>
    match g d with
    | Except.error e => ([], some e)
    | Except.ok fams =>
      let rest := runGroupsAux d gs
      (fams ++ rest.1, rest.2)

/-- All families yielded by the translation part of one scrape over snapshot
data `d`, with the exception that aborted it, if any. -/
def runGroups (d : Json) : List MetricFamily × Option PyErr :=
  runGroupsAux d groupCollectors

/-- The mutable state of a `FactorioCollector`: the `metrics_data` dict. -/
structure CollectorState where
  metricsData : Json

/-- `FactorioCollector.__init__` sets `metrics_data = {}`. -/
def initState : CollectorState :=
  { metricsData := Json.obj [] }

/-- The outcome of one attempt to open, read and JSON-parse the configured
metrics file, corresponding to the exception cases handled by
`FactorioCollector.__load_metrics_data`. -/
inductive ReadResult where
  | notFound
  | permissionDenied
  | malformed
  | ok (doc : Json)

/-- Whether the read failed before producing a parsed document. -/
def ReadResult.isFailure : ReadResult → Bool
  | .notFound => true
  | .permissionDenied => true
  | .malformed => true
  | .ok _ => false

/-- `FactorioCollector.__load_metrics_data`: on a successful read and parse
the stored `metrics_data` is replaced and `True` is returned; on
`FileNotFoundError`, `PermissionError` or `json.JSONDecodeError` the stored
data is left untouched and `False` is returned. -/
def loadMetricsData (st : CollectorState) (r : ReadResult) : CollectorState × Bool :=
  match r with
  | ReadResult.ok doc => ({ metricsData := doc }, true)
  | _ => (st, false)

/-- `FactorioCollector.collect` as one scrape: load the file, yield the
exporter-health gauge first, then run the seven group generators against the
(possibly updated, possibly stale) stored data.  The result is the new
collector state, the families yielded, and the exception that aborted the
scrape, if any. -/
def collect (st : CollectorState) (r : ReadResult) :
    CollectorState × List MetricFamily × Option PyErr :=
  let load := loadMetricsData st r
  let groups := runGroups load.1.metricsData
  (load.1, getExporterErrorMetric load.2 :: groups.1, groups.2)

end Factorio

namespace Factorio

/-! ## The RCON-based commander, autopauser, and grouped collectors of
`src/collection/collectors.py` -/

/-- The mutable state of a `FactorioCommander`: its `command` string. -/
structure Commander where
  command : String

/-- The f-string of `FactorioCommander._build_command`: the fixed literal
`/silent-command ` followed by the full text of the script file. -/
def silentCommandOf (scriptText : String) : String :=
  "/silent-command " ++ scriptText

/-- `FactorioCommander._build_command`, with the file read abstracted to the
text it returns. -/
def buildCommand (c : Commander) (scriptText : String) : Commander :=
  { c with command := silentCommandOf scriptText }

/-- `FactorioCommander.on_modified`: a hot-reload transition rebuilds the
command from the current content of the watched file. -/
def onModified (c : Commander) (fileText : String) : Commander :=
  buildCommand c fileText

/-- `FactorioCommander.__init__`: `_build_command` runs once with the file's
content at that moment, then a synthetic `FileModifiedEvent` for the same
path is handed to `on_modified`, re-reading the file (its content may have
changed in between, hence two read parameters). -/
def initCommander (firstRead secondRead : String) : Commander :=
  onModified { command := silentCommandOf firstRead } secondRead

/-- A Python `datetime.timedelta` in its normalised representation: the
`seconds` attribute is the whole-seconds component in `[0, 86400)`, not the
total duration. -/
structure Timedelta where
  days : Nat
  seconds : Nat
  microseconds : Nat

/-- `datetime.timedelta(milliseconds=ms)` for a non-negative whole `ms`. -/
def timedeltaOfMilliseconds (ms : Nat) : Timedelta :=
  { days := ms / 1000 / 86400
    seconds := ms / 1000 % 86400
    microseconds := ms % 1000 * 1000 }

/-- The default autopause interval of `FactorioAutopauser.__init__`:
`datetime.timedelta(milliseconds=100)`. -/
def autopauserDefaultInterval : Timedelta :=
  timedeltaOfMilliseconds 100

/-- The argument `FactorioAutopauser.run` passes to `time.sleep` between two
sends: `self.interval.seconds`. -/
def pacerSleepSeconds (interval : Timedelta) : Nat :=
  interval.seconds

/-- The outcome of one `FactorioCommander.send` call inside the autopauser
loop: either the RCON call returns, or it raises an exception. -/
inductive SendOutcome where
  | ok
  | raised

/-- The `while True` loop of `FactorioAutopauser.run`, run against a finite
prefix of send outcomes: it returns how many sends were attempted and
whether the loop terminated.  A send that raises propagates out of `run`
(there is no exception handler), ending the thread; on an exhausted prefix
the loop is still running. -/
def pacerSendsBeforeExit : List SendOutcome → Nat × Bool
  | [] => (0, false)
  | SendOutcome.ok :: rest =>
    let r := pacerSendsBeforeExit rest
    (r.1 + 1, r.2)
  | SendOutcome.raised :: _ => (1, true)

/-- `FactorioCollector.metrics` (grouped design): the `metrics` key of the
JSON-parsed RCON response. -/
def responseMetrics (response : Json) : Except PyErr Json :=
  response.index "metrics"

/-- One field of `metrics["time"]["ticks"]` as read by
`FactorioTimeCollector.collect`. -/
def timeTicksField (metrics : Json) (k : String) : Except PyErr Json := do
  let time ← metrics.index "time"
  let ticks ← time.index "ticks"
  ticks.index k

/-- A labelless gauge family with one sample, as built with `value=` by the
grouped time collector. -/
def plainGauge (nm : String) (v : Json) : MetricFamily :=
  { name := nm, kind := MetricKind.gauge, labels := [], samples := [([], v)] }

/-- The `for surface, surface_data in metrics["surfaces"].items()` loop of
`FactorioTimeCollector.collect`. -/
def timeSurfaceSamples (metrics : Json) : Except PyErr (List (List String × Json)) := do
  let surfaces ← metrics.index "surfaces"
  let surfaceEntries ← surfaces.entries
  exMapM (fun se => do
    let time ← se.2.index "time"
    let tpd ← time.index "ticks_per_day"
    pure ([se.1], tpd)) surfaceEntries

/-- `FactorioTimeCollector.collect`, with generator semantics: the three
plain gauges are yielded one by one before the per-surface family is built,
so an exception keeps the families already yielded. -/
def timeCollect (metrics : Json) : List MetricFamily × Option PyErr :=
  match timeTicksField metrics "current" with
  | Except.error e => ([], some e)
  | Except.ok current =>
    match timeTicksField metrics "played" with
    | Except.error e => ([plainGauge "factorio_game_tick" current], some e)
    | Except.ok played =>
      match timeTicksField metrics "paused" with
      | Except.error e =>
        ([plainGauge "factorio_game_tick" current,
          plainGauge "factorio_game_ticks_played" played], some e)
      | Except.ok paused =>
        match timeSurfaceSamples metrics with
        | Except.error e =>
          ([plainGauge "factorio_game_tick" current,
            plainGauge "factorio_game_ticks_played" played,
            plainGauge "factorio_game_tick_paused" paused], some e)
        | Except.ok tpd =>
          ([plainGauge "factorio_game_tick" current,
            plainGauge "factorio_game_ticks_played" played,
            plainGauge "factorio_game_tick_paused" paused,
            { name := "factorio_surface_ticks_per_day", kind := MetricKind.gauge
              labels := ["surface"], samples := tpd }], none)

/-- `FactorioPlayerCollector.collect` (grouped design); its body coincides
with `__collect_player_state_metrics` of the monolithic design, applied to
`metrics` instead of the whole file snapshot. -/
def playerCollect (metrics : Json) : Except PyErr (List MetricFamily) := do
  let players ← metrics.index "players"
  let entries ← players.entries
  let samples ← exMapM (fun e => do
    let connected ← e.2.index "connected"
    let v ← connected.pyInt
    pure ([e.1], v)) entries
  pure [{ name := "factorio_player_connected"
          kind := MetricKind.gauge
          labels := ["username"]
          samples := samples }]

/-! ## Concrete snapshots used by the claims -/

/-- The round-trip snapshot of the spec:
`{"game":{"time":{"tick":42}}, "players":{}, "forces":{}, "surfaces":{},
"pollution":{}}`. -/
def roundTripSnapshot : Json :=
  Json.obj
    [("game", Json.obj [("time", Json.obj [("tick", Json.num 42)])]),
     ("players", Json.obj []),
     ("forces", Json.obj []),
     ("surfaces", Json.obj []),
     ("pollution", Json.obj [])]

/-- A snapshot on which every group of the monolithic collector succeeds:
the round-trip snapshot extended with the `player` force entry the rocket
group requires. -/
def completeSnapshot : Json :=
  Json.obj
    [("game", Json.obj [("time", Json.obj [("tick", Json.num 42)])]),
     ("players", Json.obj []),
     ("forces", Json.obj
       [("player", Json.obj
         [("rockets", Json.obj
           [("launches", Json.num 7),
            ("items", Json.obj [])])])]),
     ("surfaces", Json.obj []),
     ("pollution", Json.obj [])]

/-- A snapshot that lacks the `players` key but has every other top-level
group populated well enough for its group to succeed. -/
def noPlayersSnapshot : Json :=
  Json.obj
    [("game", Json.obj [("time", Json.obj [("tick", Json.num 5)])]),
     ("forces", Json.obj
       [("player", Json.obj
         [("rockets", Json.obj
           [("launches", Json.num 1),
            ("items", Json.obj [])])])]),
     ("surfaces", Json.obj []),
     ("pollution", Json.obj [])]

end Factorio

namespace Factorio

/-! ## Structured snapshot builders used to state the universal claims -/

/-- A per-force description used to build force snapshots: a research
progress value and, for each of the two material prototype kinds, the
prototype entries (name, consumption value, production value) per surface
name. -/
structure ForceSpec where
  research : Json
  fluids : String → List (String × Json × Json)
  items : String → List (String × Json × Json)

/-- The JSON object for the prototype entries of one kind on one surface. -/
def protosJson (protos : List (String × Json × Json)) : Json :=
  Json.obj (protos.map (fun e =>
    (e.1, Json.obj [("consumption", e.2.1), ("production", e.2.2)])))

/-- The JSON object mapping every surface name to its prototype entries. -/
def kindJson (keys : List String) (protos : String → List (String × Json × Json)) : Json :=
  Json.obj (keys.map (fun s => (s, protosJson (protos s))))

/-- The JSON object for one force: a research entry followed by the two
material prototype kinds. -/
def ForceSpec.toJson (keys : List String) (fs : ForceSpec) : Json :=
  Json.obj [("research", Json.obj [("progress", fs.research)]),
            ("fluids", kindJson keys fs.fluids),
            ("items", kindJson keys fs.items)]

/-- A snapshot with the given surface names and forces, shaped the way
`__collect_force_metrics` expects. -/
def mkForceSnapshot (keys : List String) (forces : List (String × ForceSpec)) : Json :=
  Json.obj [("surfaces", Json.obj (keys.map (fun s => (s, Json.obj [])))),
            ("forces", Json.obj (forces.map (fun fp => (fp.1, fp.2.toJson keys))))]

/-- The counter samples one force contributes on one surface, with the value
picked out of the (consumption, production) pair by `vv`. -/
def genOfForce (vv : Json × Json → Json) (s f : String) (fs : ForceSpec) :
    List (List String × Json) :=
  (fs.fluids s).map (fun e => ([f, e.1, s, "fluids"], vv e.2)) ++
  (fs.items s).map (fun e => ([f, e.1, s, "items"], vv e.2))

/-- The consumption samples one force contributes on one surface. -/
def consOfForce (s f : String) (fs : ForceSpec) : List (List String × Json) :=
  genOfForce Prod.fst s f fs

/-- The production samples one force contributes on one surface. -/
def prodOfForce (s f : String) (fs : ForceSpec) : List (List String × Json) :=
  genOfForce Prod.snd s f fs

/-- The counter samples all forces contribute on one surface. -/
def genOfSurface (vv : Json × Json → Json) (forces : List (String × ForceSpec))
    (s : String) : List (List String × Json) :=
  (forces.map (fun fp => genOfForce vv s fp.1 fp.2)).flatten

/-- The consumption samples all forces contribute on one surface. -/
def consOfSurface (forces : List (String × ForceSpec)) (s : String) :
    List (List String × Json) :=
  genOfSurface Prod.fst forces s

/-- The production samples all forces contribute on one surface. -/
def prodOfSurface (forces : List (String × ForceSpec)) (s : String) :
    List (List String × Json) :=
  genOfSurface Prod.snd forces s

/-- The research samples contributed on one surface iteration: one sample
per force, labelled by the force name alone. -/
def resOfSurface (forces : List (String × ForceSpec)) (_s : String) :
    List (List String × Json) :=
  forces.map (fun fp => ([fp.1], fp.2.research))

/-- Whether a sample has the four-value label tuple of the two counter
families with the given force, prototype and surface values. -/
def tripleMatch (f p s : String) (smp : List String × Json) : Bool :=
  match smp.1 with
  | [fv, pv, sv, _] => fv == f && pv == p && sv == s
  | _ => false

/-- The conclusion of the amended claim C4 for a structured force snapshot:
the force translator succeeds with the two counter families and the research
family, the counter families hold exactly one sample for the distinguished
(force, prototype, surface) triple each, research samples go to the
single-label research family (once per surface iteration), and no counter
sample carries a research type label — every counter sample is a four-label
tuple typed `fluids` or `items`. -/
def forceTranslationOk (keys : List String) (forces : List (String × ForceSpec))
    (f0 p0 s0 : String) : Prop :=
  ∃ consFam prodFam resFam : MetricFamily,
    collectForceMetrics (mkForceSnapshot keys forces) =
      Except.ok [consFam, prodFam, resFam] ∧
    consFam.name = "factorio_force_prototype_consumption" ∧
    consFam.labels = ["force", "prototype", "surface", "type"] ∧
    prodFam.name = "factorio_force_prototype_production" ∧
    prodFam.labels = ["force", "prototype", "surface", "type"] ∧
    resFam.name = "factorio_force_research_progress" ∧
    resFam.labels = ["force"] ∧
    List.countP (tripleMatch f0 p0 s0) consFam.samples = 1 ∧
    List.countP (tripleMatch f0 p0 s0) prodFam.samples = 1 ∧
    resFam.samples = (keys.map (resOfSurface forces)).flatten ∧
    (∀ smp ∈ resFam.samples, ∃ fv v, smp = ([fv], v)) ∧
    (∀ smp ∈ consFam.samples,
      ∃ fv pv sv tv v, smp = ([fv, pv, sv, tv], v) ∧ (tv = "fluids" ∨ tv = "items")) ∧
    (∀ smp ∈ prodFam.samples,
      ∃ fv pv sv tv v, smp = ([fv, pv, sv, tv], v) ∧ (tv = "fluids" ∨ tv = "items"))

/-- The concrete force used in the witness for the amended claim C4. -/
def witnessForce : ForceSpec :=
  { research := Json.num 0
    fluids := fun _ => [("iron-plate", Json.num 2, Json.num 3)]
    items := fun _ => [] }

/-- A players map built from username/connected pairs, shaped the way
`__collect_player_state_metrics` reads it. -/
def mkPlayers (entries : List (String × Bool)) : Json :=
  Json.obj (entries.map (fun e => (e.1, Json.obj [("connected", Json.bool e.2)])))

/-- The player samples the translator emits for the given username/connected
pairs: one per pair, labelled by the username, valued 0 or 1. -/
def playerSamples (entries : List (String × Bool)) : List (List String × Json) :=
  entries.map (fun e => ([e.1], Json.num (if e.2 then 1 else 0)))

/-- The snapshot with a `forces` map lacking the `player` entry, on which
the rocket group of the monolithic collector fails. -/
def noPlayerForceSnapshot : Json :=
  Json.obj [("forces", Json.obj [("enemy", Json.obj [])])]

/-- The snapshot exhibiting the counterexample to claim C4 as stated: the
(player, nauvis, iron-plate) triple is present under the force data, but the
top-level `surfaces` map is empty. -/
def c4Snapshot : Json :=
  Json.obj
    [("surfaces", Json.obj []),
     ("forces", Json.obj
       [("player", Json.obj
         [("items", Json.obj
           [("nauvis", Json.obj
             [("iron-plate", Json.obj
               [("consumption", Json.num 5), ("production", Json.num 7)])])])])])]

end Factorio

namespace Factorio

/-- The exposition invariant for one family: every sample added to it has as
many label values as the family declared label keys (label values are
positional, so the key ordering is the declared one by construction). -/
def famArityOk (fam : MetricFamily) : Prop :=
  ∀ smp ∈ fam.samples, smp.1.length = fam.labels.length

/-- The exposition invariant for one group generator: whenever it runs to
completion, every family it yields satisfies `famArityOk`. -/
def groupArityOk (g : Json → Except PyErr (List MetricFamily)) : Prop :=
  ∀ (d : Json) (fams : List MetricFamily), g d = Except.ok fams →
    ∀ fam ∈ fams, famArityOk fam

/-! ## Helper lemmas -/

theorem ok_bind {α β : Type} (a : α) (g : α → Except PyErr β) :
    (Except.ok a >>= g) = g a := rfl

theorem error_bind {α β : Type} (e : PyErr) (g : α → Except PyErr β) :
    (Except.error e >>= g) = (Except.error e : Except PyErr β) := rfl

/-- Inversion of a successful `Except` bind. -/
theorem bind_ok_inv {α β : Type} {e : Except PyErr α} {g : α → Except PyErr β} {y : β}
    (h : (e >>= g) = Except.ok y) : ∃ a, e = Except.ok a ∧ g a = Except.ok y := by
  cases e with
  | error err => cases h
  | ok a => exact ⟨a, rfl, h⟩

/-- Every element of a successful `exMapM` run comes from applying `f` to an
element of the input list. -/
theorem exMapM_ok_mem {α β : Type} (f : α → Except PyErr β) :
    ∀ {l : List α} {ys : List β}, exMapM f l = Except.ok ys →
      ∀ y ∈ ys, ∃ x ∈ l, f x = Except.ok y := by
  intro l
  induction l with
  | nil =>
    intro ys h y hy
    cases h
    cases hy
  | cons a l ih =>
    intro ys h y hy
    rw [exMapM] at h
    obtain ⟨b, hb, h2⟩ := bind_ok_inv h
    obtain ⟨bs, hbs, h3⟩ := bind_ok_inv h2
    cases h3
    rcases List.mem_cons.1 hy with hy | hy
    · exact ⟨a, List.mem_cons_self a l, hy ▸ hb⟩
    · obtain ⟨x, hx, hfx⟩ := ih hbs y hy
      exact ⟨x, List.mem_cons_of_mem a hx, hfx⟩

/-- A pointwise-successful `exMapM` run is a plain `map`. -/
theorem exMapM_eq_map {α β : Type} (f : α → Except PyErr β) (g : α → β) :
    ∀ (l : List α), (∀ x ∈ l, f x = Except.ok (g x)) →
      exMapM f l = Except.ok (l.map g) := by
  intro l
  induction l with
  | nil => intro _; rfl
  | cons a l ih =>
    intro hp
    rw [exMapM, hp a (List.mem_cons_self a l),
      ih (fun x hx => hp x (List.mem_cons_of_mem a hx))]
    rfl

/-- A pointwise-successful `exMapM` run over a mapped list. -/
theorem exMapM_map {α β γ : Type} (f : β → Except PyErr γ) (h : α → β) (g : α → γ) :
    ∀ (l : List α), (∀ x ∈ l, f (h x) = Except.ok (g x)) →
      exMapM f (l.map h) = Except.ok (l.map g) := by
  intro l
  induction l with
  | nil => intro _; rfl
  | cons a l ih =>
    intro hp
    rw [List.map_cons, exMapM, hp a (List.mem_cons_self a l),
      ih (fun x hx => hp x (List.mem_cons_of_mem a hx))]
    rfl

end Factorio

namespace Factorio

theorem pure_ok_inv {α : Type} {a b : α}
    (h : (pure a : Except PyErr α) = Except.ok b) : a = b := by
  injection h

/-! ## Arity lemmas, group by group -/

theorem collectTimeMetrics_arity : groupArityOk collectTimeMetrics := by
  intro d fams h fam hfam smp hsmp
  rw [collectTimeMetrics] at h
  obtain ⟨game, hg, h⟩ := bind_ok_inv h
  obtain ⟨time, ht, h⟩ := bind_ok_inv h
  obtain ⟨tick, htk, h⟩ := bind_ok_inv h
  cases pure_ok_inv h
  rcases List.mem_singleton.1 hfam with rfl
  rcases List.mem_singleton.1 hsmp with rfl
  rfl

theorem collectPlayerStateMetrics_arity : groupArityOk collectPlayerStateMetrics := by
  intro d fams h fam hfam smp hsmp
  rw [collectPlayerStateMetrics] at h
  obtain ⟨players, hp, h⟩ := bind_ok_inv h
  obtain ⟨entries, he, h⟩ := bind_ok_inv h
  obtain ⟨samples, hs, h⟩ := bind_ok_inv h
  cases pure_ok_inv h
  rcases List.mem_singleton.1 hfam with rfl
  obtain ⟨x, hx, hfx⟩ := exMapM_ok_mem _ hs smp hsmp
  obtain ⟨connected, hc, hfx⟩ := bind_ok_inv hfx
  obtain ⟨v, hv, hfx⟩ := bind_ok_inv hfx
  cases pure_ok_inv hfx
  rfl

theorem collectForceType_arity {f : String} {fd : Json} {s ty : String} {p : Json}
    {t : List (List String × Json) × List (List String × Json) × List (List String × Json)}
    (h : collectForceType f fd s ty p = Except.ok t) :
    (∀ smp ∈ t.1, smp.1.length = 4) ∧ (∀ smp ∈ t.2.1, smp.1.length = 4) ∧
      (∀ smp ∈ t.2.2, smp.1.length = 1) := by
  rw [collectForceType] at h
  have material : ∀ (res : List (List String × Json)),
      (∀ smp ∈ res, smp.1.length = 1) →
      ∀ (pairs : List ((List String × Json) × (List String × Json))),
      (∀ pr ∈ pairs, pr.1.1.length = 4 ∧ pr.2.1.length = 4) →
      t = (pairs.map Prod.fst, pairs.map (fun x => x.2), res) →
      (∀ smp ∈ t.1, smp.1.length = 4) ∧ (∀ smp ∈ t.2.1, smp.1.length = 4) ∧
        (∀ smp ∈ t.2.2, smp.1.length = 1) := by
    intro res hres pairs hpairs ht
    subst ht
    refine ⟨?_, ?_, hres⟩
    · intro smp hsmp
      obtain ⟨pr, hpr, rfl⟩ := List.mem_map.1 hsmp
      exact (hpairs pr hpr).1
    · intro smp hsmp
      obtain ⟨pr, hpr, rfl⟩ := List.mem_map.1 hsmp
      exact (hpairs pr hpr).2
  have pairlen : ∀ (protoEntries : List (String × Json)) (pairs : List _),
      exMapM (fun pe => do
        let c ← Json.index pe.2 "consumption"
        let p ← Json.index pe.2 "production"
        pure (([f, pe.1, s, ty], c), ([f, pe.1, s, ty], p))) protoEntries =
          Except.ok pairs →
      ∀ pr ∈ pairs, pr.1.1.length = 4 ∧ pr.2.1.length = 4 := by
    intro protoEntries pairs hpairs pr hpr
    obtain ⟨x, hx, hfx⟩ := exMapM_ok_mem _ hpairs pr hpr
    obtain ⟨c, hc, hfx⟩ := bind_ok_inv hfx
    obtain ⟨pv, hpv, hfx⟩ := bind_ok_inv hfx
    cases pure_ok_inv hfx
    exact ⟨rfl, rfl⟩
  split at h
  · obtain ⟨research, hr, h⟩ := bind_ok_inv h
    obtain ⟨progress, hpr, h⟩ := bind_ok_inv h
    obtain ⟨res, hres, h⟩ := bind_ok_inv h
    cases pure_ok_inv hres
    have hreslen : ∀ smp ∈ [(([f], progress) : List String × Json)], smp.1.length = 1 := by
      intro smp hsmp
      rcases List.mem_singleton.1 hsmp with rfl
      rfl
    split at h
    · obtain ⟨surfaceProtos, hsp, h⟩ := bind_ok_inv h
      obtain ⟨protoEntries, hpe, h⟩ := bind_ok_inv h
      obtain ⟨pairs, hpairs, h⟩ := bind_ok_inv h
      exact material _ hreslen pairs (pairlen protoEntries pairs hpairs)
        (pure_ok_inv h).symm
    · cases pure_ok_inv h
      exact ⟨fun smp hsmp => absurd hsmp (List.not_mem_nil smp),
             fun smp hsmp => absurd hsmp (List.not_mem_nil smp), hreslen⟩
  · obtain ⟨res, hres, h⟩ := bind_ok_inv h
    cases pure_ok_inv hres
    have hreslen : ∀ smp ∈ ([] : List (List String × Json)), smp.1.length = 1 := by
      intro smp hsmp
      cases hsmp
    split at h
    · obtain ⟨surfaceProtos, hsp, h⟩ := bind_ok_inv h
      obtain ⟨protoEntries, hpe, h⟩ := bind_ok_inv h
      obtain ⟨pairs, hpairs, h⟩ := bind_ok_inv h
      exact material _ hreslen pairs (pairlen protoEntries pairs hpairs)
        (pure_ok_inv h).symm
    · cases pure_ok_inv h
      exact ⟨fun smp hsmp => absurd hsmp (List.not_mem_nil smp),
             fun smp hsmp => absurd hsmp (List.not_mem_nil smp), hreslen⟩

theorem collectForceOne_arity {s f : String} {fd : Json}
    {t : List (List String × Json) × List (List String × Json) × List (List String × Json)}
    (h : collectForceOne s f fd = Except.ok t) :
    (∀ smp ∈ t.1, smp.1.length = 4) ∧ (∀ smp ∈ t.2.1, smp.1.length = 4) ∧
      (∀ smp ∈ t.2.2, smp.1.length = 1) := by
  rw [collectForceOne] at h
  obtain ⟨types, hty, h⟩ := bind_ok_inv h
  obtain ⟨parts, hparts, h⟩ := bind_ok_inv h
  cases pure_ok_inv h
  refine ⟨?_, ?_, ?_⟩
  · intro smp hsmp
    obtain ⟨l, hl, hmem⟩ := List.mem_flatten.1 hsmp
    obtain ⟨part, hpart, rfl⟩ := List.mem_map.1 hl
    obtain ⟨x, hx, hfx⟩ := exMapM_ok_mem _ hparts part hpart
    exact (collectForceType_arity hfx).1 smp hmem
  · intro smp hsmp
    obtain ⟨l, hl, hmem⟩ := List.mem_flatten.1 hsmp
    obtain ⟨part, hpart, rfl⟩ := List.mem_map.1 hl
    obtain ⟨x, hx, hfx⟩ := exMapM_ok_mem _ hparts part hpart
    exact (collectForceType_arity hfx).2.1 smp hmem
  · intro smp hsmp
    obtain ⟨l, hl, hmem⟩ := List.mem_flatten.1 hsmp
    obtain ⟨part, hpart, rfl⟩ := List.mem_map.1 hl
    obtain ⟨x, hx, hfx⟩ := exMapM_ok_mem _ hparts part hpart
    exact (collectForceType_arity hfx).2.2 smp hmem

theorem collectForceSurface_arity {d : Json} {s : String}
    {t : List (List String × Json) × List (List String × Json) × List (List String × Json)}
    (h : collectForceSurface d s = Except.ok t) :
    (∀ smp ∈ t.1, smp.1.length = 4) ∧ (∀ smp ∈ t.2.1, smp.1.length = 4) ∧
      (∀ smp ∈ t.2.2, smp.1.length = 1) := by
  rw [collectForceSurface] at h
  obtain ⟨forces, hfo, h⟩ := bind_ok_inv h
  obtain ⟨forceEntries, hfe, h⟩ := bind_ok_inv h
  obtain ⟨parts, hparts, h⟩ := bind_ok_inv h
  cases pure_ok_inv h
  refine ⟨?_, ?_, ?_⟩
  · intro smp hsmp
    obtain ⟨l, hl, hmem⟩ := List.mem_flatten.1 hsmp
    obtain ⟨part, hpart, rfl⟩ := List.mem_map.1 hl
    obtain ⟨x, hx, hfx⟩ := exMapM_ok_mem _ hparts part hpart
    exact (collectForceOne_arity hfx).1 smp hmem
  · intro smp hsmp
    obtain ⟨l, hl, hmem⟩ := List.mem_flatten.1 hsmp
    obtain ⟨part, hpart, rfl⟩ := List.mem_map.1 hl
    obtain ⟨x, hx, hfx⟩ := exMapM_ok_mem _ hparts part hpart
    exact (collectForceOne_arity hfx).2.1 smp hmem
  · intro smp hsmp
    obtain ⟨l, hl, hmem⟩ := List.mem_flatten.1 hsmp
    obtain ⟨part, hpart, rfl⟩ := List.mem_map.1 hl
    obtain ⟨x, hx, hfx⟩ := exMapM_ok_mem _ hparts part hpart
    exact (collectForceOne_arity hfx).2.2 smp hmem

theorem collectForceMetrics_arity : groupArityOk collectForceMetrics := by
  intro d fams h fam hfam smp hsmp
  rw [collectForceMetrics] at h
  obtain ⟨surfaces, hsf, h⟩ := bind_ok_inv h
  obtain ⟨surfaceKeys, hsk, h⟩ := bind_ok_inv h
  obtain ⟨parts, hparts, h⟩ := bind_ok_inv h
  cases pure_ok_inv h
  rcases List.mem_cons.1 hfam with rfl | hfam
  · obtain ⟨l, hl, hmem⟩ := List.mem_flatten.1 hsmp
    obtain ⟨part, hpart, rfl⟩ := List.mem_map.1 hl
    obtain ⟨x, hx, hfx⟩ := exMapM_ok_mem _ hparts part hpart
    exact (collectForceSurface_arity hfx).1 smp hmem
  rcases List.mem_cons.1 hfam with rfl | hfam
  · obtain ⟨l, hl, hmem⟩ := List.mem_flatten.1 hsmp
    obtain ⟨part, hpart, rfl⟩ := List.mem_map.1 hl
    obtain ⟨x, hx, hfx⟩ := exMapM_ok_mem _ hparts part hpart
    exact (collectForceSurface_arity hfx).2.1 smp hmem
  rcases List.mem_cons.1 hfam with rfl | hfam
  · obtain ⟨l, hl, hmem⟩ := List.mem_flatten.1 hsmp
    obtain ⟨part, hpart, rfl⟩ := List.mem_map.1 hl
    obtain ⟨x, hx, hfx⟩ := exMapM_ok_mem _ hparts part hpart
    exact (collectForceSurface_arity hfx).2.2 smp hmem
  cases hfam

end Factorio

namespace Factorio

theorem collectPollutionMetrics_arity : groupArityOk collectPollutionMetrics := by
  intro d fams h fam hfam smp hsmp
  rw [collectPollutionMetrics] at h
  obtain ⟨pollution, hp, h⟩ := bind_ok_inv h
  obtain ⟨surfaceEntries, hse, h⟩ := bind_ok_inv h
  obtain ⟨samples, hs, h⟩ := bind_ok_inv h
  cases pure_ok_inv h
  rcases List.mem_singleton.1 hfam with rfl
  obtain ⟨l, hl, hmem⟩ := List.mem_flatten.1 hsmp
  obtain ⟨x, hx, hfx⟩ := exMapM_ok_mem _ hs l hl
  obtain ⟨entityEntries, hee, hfx⟩ := bind_ok_inv hfx
  cases pure_ok_inv hfx
  obtain ⟨ee, hee2, rfl⟩ := List.mem_map.1 hmem
  rfl

theorem collectSurfaceMetrics_arity : groupArityOk collectSurfaceMetrics := by
  intro d fams h fam hfam smp hsmp
  rw [collectSurfaceMetrics] at h
  obtain ⟨surfaces, hsf, h⟩ := bind_ok_inv h
  obtain ⟨surfaceEntries, hse, h⟩ := bind_ok_inv h
  obtain ⟨pairs, hps, h⟩ := bind_ok_inv h
  cases pure_ok_inv h
  have hpair : ∀ pr ∈ pairs, pr.1.1.length = 1 ∧ pr.2.1.length = 1 := by
    intro pr hpr
    obtain ⟨x, hx, hfx⟩ := exMapM_ok_mem _ hps pr hpr
    obtain ⟨pol, hpol, hfx⟩ := bind_ok_inv hfx
    obtain ⟨tpd, htpd, hfx⟩ := bind_ok_inv hfx
    cases pure_ok_inv hfx
    exact ⟨rfl, rfl⟩
  rcases List.mem_cons.1 hfam with rfl | hfam
  · obtain ⟨pr, hpr, rfl⟩ := List.mem_map.1 hsmp
    exact (hpair pr hpr).1
  rcases List.mem_cons.1 hfam with rfl | hfam
  · obtain ⟨pr, hpr, rfl⟩ := List.mem_map.1 hsmp
    exact (hpair pr hpr).2
  cases hfam

theorem collectEntityMetrics_arity : groupArityOk collectEntityMetrics := by
  intro d fams h fam hfam smp hsmp
  rw [collectEntityMetrics] at h
  obtain ⟨surfaces, hsf, h⟩ := bind_ok_inv h
  obtain ⟨surfaceEntries, hse, h⟩ := bind_ok_inv h
  obtain ⟨samples, hs, h⟩ := bind_ok_inv h
  cases pure_ok_inv h
  rcases List.mem_singleton.1 hfam with rfl
  obtain ⟨l, hl, hmem⟩ := List.mem_flatten.1 hsmp
  obtain ⟨x, hx, hfx⟩ := exMapM_ok_mem _ hs l hl
  obtain ⟨ents, hents, hfx⟩ := bind_ok_inv hfx
  obtain ⟨entityEntries, hee, hfx⟩ := bind_ok_inv hfx
  cases pure_ok_inv hfx
  obtain ⟨ee, hee2, rfl⟩ := List.mem_map.1 hmem
  rfl

theorem collectRocketMetrics_arity : groupArityOk collectRocketMetrics := by
  intro d fams h fam hfam smp hsmp
  rw [collectRocketMetrics] at h
  obtain ⟨forces, hf, h⟩ := bind_ok_inv h
  obtain ⟨playerForce, hpf, h⟩ := bind_ok_inv h
  obtain ⟨rockets, hrk, h⟩ := bind_ok_inv h
  obtain ⟨launches, hla, h⟩ := bind_ok_inv h
  obtain ⟨forces2, hf2, h⟩ := bind_ok_inv h
  obtain ⟨playerForce2, hpf2, h⟩ := bind_ok_inv h
  obtain ⟨rockets2, hrk2, h⟩ := bind_ok_inv h
  obtain ⟨itemsObj, hio, h⟩ := bind_ok_inv h
  obtain ⟨itemEntries, hie, h⟩ := bind_ok_inv h
  cases pure_ok_inv h
  rcases List.mem_cons.1 hfam with rfl | hfam
  · rcases List.mem_singleton.1 hsmp with rfl
    rfl
  rcases List.mem_cons.1 hfam with rfl | hfam
  · obtain ⟨ie, hie2, rfl⟩ := List.mem_map.1 hsmp
    rfl
  cases hfam

/-- The exporter-health gauge satisfies the arity invariant. -/
theorem getExporterErrorMetric_arity (b : Bool) : famArityOk (getExporterErrorMetric b) := by
  intro smp hsmp
  rcases List.mem_singleton.1 hsmp with rfl
  rfl

/-- Accumulated arity invariant over a chain of group generators. -/
theorem runGroupsAux_arity (d : Json) :
    ∀ (gs : List (Json → Except PyErr (List MetricFamily))),
      (∀ g ∈ gs, groupArityOk g) →
      ∀ fam ∈ (runGroupsAux d gs).1, famArityOk fam := by
  intro gs
  induction gs with
  | nil =>
    intro _ fam hfam
    cases hfam
  | cons g gs ih =>
    intro hok fam hfam
    rw [runGroupsAux] at hfam
    cases hg : g d with
    | error e =>
      rw [hg] at hfam
      cases hfam
    | ok fams =>
      rw [hg] at hfam
      rcases List.mem_append.1 hfam with hfam | hfam
      · exact hok g (List.mem_cons_self g gs) d fams hg fam hfam
      · exact ih (fun g2 hg2 => hok g2 (List.mem_cons_of_mem g hg2)) fam hfam

/-- Every group generator invoked by `FactorioCollector.collect` satisfies
the arity invariant. -/
theorem groupCollectors_arity : ∀ g ∈ groupCollectors, groupArityOk g := by
  intro g hg
  rw [groupCollectors] at hg
  rcases List.mem_cons.1 hg with rfl | hg
  · exact collectTimeMetrics_arity
  rcases List.mem_cons.1 hg with rfl | hg
  · exact collectPlayerStateMetrics_arity
  rcases List.mem_cons.1 hg with rfl | hg
  · exact collectForceMetrics_arity
  rcases List.mem_cons.1 hg with rfl | hg
  · exact collectPollutionMetrics_arity
  rcases List.mem_cons.1 hg with rfl | hg
  · exact collectSurfaceMetrics_arity
  rcases List.mem_cons.1 hg with rfl | hg
  · exact collectEntityMetrics_arity
  rcases List.mem_cons.1 hg with rfl | hg
  · exact collectRocketMetrics_arity
  cases hg

/-- Every sample the grouped time collector builds for the per-surface
ticks-per-day family carries exactly one label value. -/
theorem timeSurfaceSamples_arity {m : Json} {tpd : List (List String × Json)}
    (h : timeSurfaceSamples m = Except.ok tpd) :
    ∀ smp ∈ tpd, smp.1.length = 1 := by
  rw [timeSurfaceSamples] at h
  obtain ⟨surfaces, hsf, h⟩ := bind_ok_inv h
  obtain ⟨surfaceEntries, hse, h⟩ := bind_ok_inv h
  intro smp hsmp
  obtain ⟨x, hx, hfx⟩ := exMapM_ok_mem _ h smp hsmp
  obtain ⟨time, ht, hfx⟩ := bind_ok_inv hfx
  obtain ⟨tpdv, htp, hfx⟩ := bind_ok_inv hfx
  cases pure_ok_inv hfx
  rfl

/-- Arity invariant for the grouped `FactorioTimeCollector.collect`,
including the scrapes aborted partway through its yields. -/
theorem timeCollect_arity (m : Json) :
    ∀ fam ∈ (timeCollect m).1, famArityOk fam := by
  intro fam hfam smp hsmp
  rw [timeCollect] at hfam
  have plain : ∀ (nm : String) (v : Json) (sm : List String × Json),
      sm ∈ (plainGauge nm v).samples → sm.1.length = (plainGauge nm v).labels.length := by
    intro nm v sm hsm
    rcases List.mem_singleton.1 hsm with rfl
    rfl
  split at hfam
  · cases hfam
  · split at hfam
    · rcases List.mem_singleton.1 hfam with rfl
      exact plain _ _ smp hsmp
    · split at hfam
      · rcases List.mem_cons.1 hfam with rfl | hfam
        · exact plain _ _ smp hsmp
        rcases List.mem_singleton.1 hfam with rfl
        exact plain _ _ smp hsmp
      · split at hfam
        · rcases List.mem_cons.1 hfam with rfl | hfam
          · exact plain _ _ smp hsmp
          rcases List.mem_cons.1 hfam with rfl | hfam
          · exact plain _ _ smp hsmp
          rcases List.mem_singleton.1 hfam with rfl
          exact plain _ _ smp hsmp
        · rename_i tpd hps
          rcases List.mem_cons.1 hfam with rfl | hfam
          · exact plain _ _ smp hsmp
          rcases List.mem_cons.1 hfam with rfl | hfam
          · exact plain _ _ smp hsmp
          rcases List.mem_cons.1 hfam with rfl | hfam
          · exact plain _ _ smp hsmp
          rcases List.mem_singleton.1 hfam with rfl
          exact timeSurfaceSamples_arity hps smp hsmp

end Factorio

namespace Factorio

/-! ## The hard-coded `player` force label (claim C10) -/

theorem collectEntityMetrics_player {d : Json} {fams : List MetricFamily}
    (h : collectEntityMetrics d = Except.ok fams) :
    ∀ fam ∈ fams, ∀ smp ∈ fam.samples, smp.1.head? = some "player" := by
  intro fam hfam smp hsmp
  rw [collectEntityMetrics] at h
  obtain ⟨surfaces, hsf, h⟩ := bind_ok_inv h
  obtain ⟨surfaceEntries, hse, h⟩ := bind_ok_inv h
  obtain ⟨samples, hs, h⟩ := bind_ok_inv h
  cases pure_ok_inv h
  rcases List.mem_singleton.1 hfam with rfl
  obtain ⟨l, hl, hmem⟩ := List.mem_flatten.1 hsmp
  obtain ⟨x, hx, hfx⟩ := exMapM_ok_mem _ hs l hl
  obtain ⟨ents, hents, hfx⟩ := bind_ok_inv hfx
  obtain ⟨entityEntries, hee, hfx⟩ := bind_ok_inv hfx
  cases pure_ok_inv hfx
  obtain ⟨ee, hee2, rfl⟩ := List.mem_map.1 hmem
  rfl

theorem collectRocketMetrics_player {d : Json} {fams : List MetricFamily}
    (h : collectRocketMetrics d = Except.ok fams) :
    ∀ fam ∈ fams, ∀ smp ∈ fam.samples, smp.1.head? = some "player" := by
  intro fam hfam smp hsmp
  rw [collectRocketMetrics] at h
  obtain ⟨forces, hf, h⟩ := bind_ok_inv h
  obtain ⟨playerForce, hpf, h⟩ := bind_ok_inv h
  obtain ⟨rockets, hrk, h⟩ := bind_ok_inv h
  obtain ⟨launches, hla, h⟩ := bind_ok_inv h
  obtain ⟨forces2, hf2, h⟩ := bind_ok_inv h
  obtain ⟨playerForce2, hpf2, h⟩ := bind_ok_inv h
  obtain ⟨rockets2, hrk2, h⟩ := bind_ok_inv h
  obtain ⟨itemsObj, hio, h⟩ := bind_ok_inv h
  obtain ⟨itemEntries, hie, h⟩ := bind_ok_inv h
  cases pure_ok_inv h
  rcases List.mem_cons.1 hfam with rfl | hfam
  · rcases List.mem_singleton.1 hsmp with rfl
    rfl
  rcases List.mem_cons.1 hfam with rfl | hfam
  · obtain ⟨ie, hie2, rfl⟩ := List.mem_map.1 hsmp
    rfl
  cases hfam

/-- When the forces map has no `player` key, the rocket group raises the
corresponding `KeyError` before emitting anything. -/
theorem collectRocketMetrics_no_player {d : Json} {fields : List (String × Json)}
    (hforces : d.index "forces" = Except.ok (Json.obj fields))
    (hlookup : fields.lookup "player" = none) :
    collectRocketMetrics d = Except.error (PyErr.keyError "player") := by
  rw [collectRocketMetrics, hforces, ok_bind, Json.index, hlookup]
  rfl

end Factorio

namespace Factorio

/-! ## Closed form of the force translator on structured snapshots -/

/-- Looking up any key of a map keyed by a list it belongs to returns the
value the key determines, first occurrence or not. -/
theorem lookup_map_self {β : Type} (v : String → β) :
    ∀ (keys : List String) (s : String), s ∈ keys →
      (keys.map (fun k => (k, v k))).lookup s = some (v s) := by
  intro keys
  induction keys with
  | nil =>
    intro s hs
    cases hs
  | cons k keys ih =>
    intro s hs
    by_cases heq : s = k
    · subst heq
      simp [List.lookup]
    · have hmem : s ∈ keys := by
        rcases List.mem_cons.1 hs with rfl | hmem
        · exact absurd rfl heq
        · exact hmem
      rw [List.map_cons, List.lookup_cons, beq_false_of_ne heq]
      exact ih s hmem

theorem collectForceType_mk_research (keys : List String) (fs : ForceSpec) (f s : String) :
    collectForceType f (ForceSpec.toJson keys fs) s "research"
        (Json.obj [("progress", fs.research)]) =
      Except.ok ([], [], [([f], fs.research)]) := rfl

theorem collectForceType_mk_fluids (keys : List String) (fs : ForceSpec) (f s : String)
    (hs : s ∈ keys) :
    collectForceType f (ForceSpec.toJson keys fs) s "fluids" (kindJson keys fs.fluids) =
      Except.ok ((fs.fluids s).map (fun e => ([f, e.1, s, "fluids"], e.2.1)),
                 (fs.fluids s).map (fun e => ([f, e.1, s, "fluids"], e.2.2)), []) := by
  show (do
    let surfaceProtos ← (kindJson keys fs.fluids).index s
    let protoEntries ← surfaceProtos.entries
    let pairs ← exMapM (fun pe : String × Json => do
      let c ← pe.2.index "consumption"
      let p ← pe.2.index "production"
      pure (([f, pe.1, s, "fluids"], c), ([f, pe.1, s, "fluids"], p))) protoEntries
    pure (pairs.map Prod.fst,
      pairs.map (fun x : (List String × Json) × (List String × Json) => x.2),
      ([] : List (List String × Json)))) = _
  have hidx : (kindJson keys fs.fluids).index s =
      Except.ok (protosJson (fs.fluids s)) := by
    rw [kindJson, Json.index, lookup_map_self _ keys s hs]
  rw [hidx, ok_bind]
  have hent : (protosJson (fs.fluids s)).entries = Except.ok
      ((fs.fluids s).map (fun e =>
        (e.1, Json.obj [("consumption", e.2.1), ("production", e.2.2)]))) := rfl
  rw [hent, ok_bind]
  rw [exMapM_map
      (fun pe : String × Json => do
        let c ← pe.2.index "consumption"
        let p ← pe.2.index "production"
        pure (([f, pe.1, s, "fluids"], c), ([f, pe.1, s, "fluids"], p)))
      (fun e : String × Json × Json =>
        (e.1, Json.obj [("consumption", e.2.1), ("production", e.2.2)]))
      (fun e : String × Json × Json =>
        (([f, e.1, s, "fluids"], e.2.1), ([f, e.1, s, "fluids"], e.2.2)))
      (fs.fluids s) (fun x _ => rfl), ok_bind]
  simp only [List.map_map]
  rfl

theorem collectForceType_mk_items (keys : List String) (fs : ForceSpec) (f s : String)
    (hs : s ∈ keys) :
    collectForceType f (ForceSpec.toJson keys fs) s "items" (kindJson keys fs.items) =
      Except.ok ((fs.items s).map (fun e => ([f, e.1, s, "items"], e.2.1)),
                 (fs.items s).map (fun e => ([f, e.1, s, "items"], e.2.2)), []) := by
  show (do
    let surfaceProtos ← (kindJson keys fs.items).index s
    let protoEntries ← surfaceProtos.entries
    let pairs ← exMapM (fun pe : String × Json => do
      let c ← pe.2.index "consumption"
      let p ← pe.2.index "production"
      pure (([f, pe.1, s, "items"], c), ([f, pe.1, s, "items"], p))) protoEntries
    pure (pairs.map Prod.fst,
      pairs.map (fun x : (List String × Json) × (List String × Json) => x.2),
      ([] : List (List String × Json)))) = _
  have hidx : (kindJson keys fs.items).index s =
      Except.ok (protosJson (fs.items s)) := by
    rw [kindJson, Json.index, lookup_map_self _ keys s hs]
  rw [hidx, ok_bind]
  have hent : (protosJson (fs.items s)).entries = Except.ok
      ((fs.items s).map (fun e =>
        (e.1, Json.obj [("consumption", e.2.1), ("production", e.2.2)]))) := rfl
  rw [hent, ok_bind]
  rw [exMapM_map
      (fun pe : String × Json => do
        let c ← pe.2.index "consumption"
        let p ← pe.2.index "production"
        pure (([f, pe.1, s, "items"], c), ([f, pe.1, s, "items"], p)))
      (fun e : String × Json × Json =>
        (e.1, Json.obj [("consumption", e.2.1), ("production", e.2.2)]))
      (fun e : String × Json × Json =>
        (([f, e.1, s, "items"], e.2.1), ([f, e.1, s, "items"], e.2.2)))
      (fs.items s) (fun x _ => rfl), ok_bind]
  simp only [List.map_map]
  rfl

end Factorio

namespace Factorio

theorem flatten_map_singleton {α β : Type} (g : α → β) :
    ∀ (l : List α), (l.map (fun x => [g x])).flatten = l.map g := by
  intro l
  induction l with
  | nil => rfl
  | cons a l ih => simp [ih]

theorem collectForceOne_mk (keys : List String) (fs : ForceSpec) (f s : String)
    (hs : s ∈ keys) :
    collectForceOne s f (ForceSpec.toJson keys fs) =
      Except.ok (consOfForce s f fs, prodOfForce s f fs, [([f], fs.research)]) := by
  rw [collectForceOne]
  have hentries : (ForceSpec.toJson keys fs).entries = Except.ok
      [("research", Json.obj [("progress", fs.research)]),
       ("fluids", kindJson keys fs.fluids),
       ("items", kindJson keys fs.items)] := rfl
  rw [hentries, ok_bind]
  simp only [exMapM, collectForceType_mk_research keys fs f s,
    collectForceType_mk_fluids keys fs f s hs,
    collectForceType_mk_items keys fs f s hs, ok_bind]
  simp [consOfForce, prodOfForce, genOfForce]
  rfl

theorem collectForceSurface_mk (keys : List String) (forces : List (String × ForceSpec))
    (s : String) (hs : s ∈ keys) :
    collectForceSurface (mkForceSnapshot keys forces) s =
      Except.ok (consOfSurface forces s, prodOfSurface forces s, resOfSurface forces s) := by
  rw [collectForceSurface]
  have hfo : (mkForceSnapshot keys forces).index "forces" =
      Except.ok (Json.obj (forces.map (fun fp => (fp.1, ForceSpec.toJson keys fp.2)))) := rfl
  rw [hfo, ok_bind]
  have hfe : (Json.obj (forces.map (fun fp => (fp.1, ForceSpec.toJson keys fp.2)))).entries =
      Except.ok (forces.map (fun fp => (fp.1, ForceSpec.toJson keys fp.2))) := rfl
  rw [hfe, ok_bind]
  rw [exMapM_map
      (fun fp : String × Json => collectForceOne s fp.1 fp.2)
      (fun fp : String × ForceSpec => (fp.1, ForceSpec.toJson keys fp.2))
      (fun fp : String × ForceSpec =>
        (consOfForce s fp.1 fp.2, prodOfForce s fp.1 fp.2, [([fp.1], fp.2.research)]))
      forces (fun fp _ => collectForceOne_mk keys fp.2 fp.1 s hs), ok_bind]
  simp only [List.map_map]
  show Except.ok
      ((forces.map (fun fp : String × ForceSpec => consOfForce s fp.1 fp.2)).flatten,
       (forces.map (fun fp : String × ForceSpec => prodOfForce s fp.1 fp.2)).flatten,
       (forces.map (fun fp : String × ForceSpec => [([fp.1], fp.2.research)])).flatten) =
    Except.ok (consOfSurface forces s, prodOfSurface forces s, resOfSurface forces s)
  rw [flatten_map_singleton (fun fp : String × ForceSpec => ([fp.1], fp.2.research)) forces]
  rfl

theorem collectForceMetrics_mk (keys : List String) (forces : List (String × ForceSpec)) :
    collectForceMetrics (mkForceSnapshot keys forces) =
      Except.ok
        [{ name := "factorio_force_prototype_consumption"
           kind := MetricKind.counter
           labels := ["force", "prototype", "surface", "type"]
           samples := (keys.map (consOfSurface forces)).flatten },
         { name := "factorio_force_prototype_production"
           kind := MetricKind.counter
           labels := ["force", "prototype", "surface", "type"]
           samples := (keys.map (prodOfSurface forces)).flatten },
         { name := "factorio_force_research_progress"
           kind := MetricKind.gauge
           labels := ["force"]
           samples := (keys.map (resOfSurface forces)).flatten }] := by
  rw [collectForceMetrics]
  have hsf : (mkForceSnapshot keys forces).index "surfaces" =
      Except.ok (Json.obj (keys.map (fun s => (s, Json.obj [])))) := rfl
  rw [hsf, ok_bind]
  have hkl : (Json.obj (keys.map (fun s => (s, Json.obj [])))).keysList =
      Except.ok keys := by
    simp only [Json.keysList, List.map_map]
    exact congrArg Except.ok (List.map_id'' (fun x => rfl) keys)
  rw [hkl, ok_bind]
  rw [exMapM_eq_map _
      (fun s => (consOfSurface forces s, prodOfSurface forces s, resOfSurface forces s))
      keys (fun s hs => collectForceSurface_mk keys forces s hs), ok_bind]
  simp only [List.map_map]
  rfl

end Factorio

namespace Factorio

/-! ## Counting the counter samples of one (force, surface, prototype) triple -/

theorem sum_eq_zero_nat : ∀ (l : List Nat), (∀ x ∈ l, x = 0) → l.sum = 0 := by
  intro l
  induction l with
  | nil => intro _; rfl
  | cons a l ih =>
    intro h
    rw [List.sum_cons, h a (List.mem_cons_self a l),
      ih (fun x hx => h x (List.mem_cons_of_mem a hx))]

theorem map_sum_single_key (cnt : String → Nat) (s0 : String) :
    ∀ (keys : List String), keys.Nodup → s0 ∈ keys →
      (∀ s ∈ keys, s ≠ s0 → cnt s = 0) → (keys.map cnt).sum = cnt s0 := by
  intro keys
  induction keys with
  | nil =>
    intro _ h
    cases h
  | cons k keys ih =>
    intro hnd hmem hz
    rw [List.map_cons, List.sum_cons]
    rcases List.mem_cons.1 hmem with rfl | hmem2
    · have hrest : (keys.map cnt).sum = 0 := by
        apply sum_eq_zero_nat
        intro x hx
        obtain ⟨s, hsmem, rfl⟩ := List.mem_map.1 hx
        have hne : s ≠ s0 := by
          intro hcontra
          subst hcontra
          exact (List.nodup_cons.1 hnd).1 hsmem
        exact hz s (List.mem_cons_of_mem _ hsmem) hne
      rw [hrest]
      omega
    · have hk : k ≠ s0 := by
        intro hcontra
        subst hcontra
        exact (List.nodup_cons.1 hnd).1 hmem2
      rw [hz k (List.mem_cons_self k keys) hk,
        ih (List.nodup_cons.1 hnd).2 hmem2
          (fun s hs hne => hz s (List.mem_cons_of_mem k hs) hne)]
      omega

theorem map_sum_single_pair (cnt : String × ForceSpec → Nat) (x0 : String × ForceSpec) :
    ∀ (l : List (String × ForceSpec)), (l.map Prod.fst).Nodup → x0 ∈ l →
      (∀ x ∈ l, x.1 ≠ x0.1 → cnt x = 0) → (l.map cnt).sum = cnt x0 := by
  intro l
  induction l with
  | nil =>
    intro _ h
    cases h
  | cons a l ih =>
    intro hnd hmem hz
    rw [List.map_cons] at hnd
    rw [List.map_cons, List.sum_cons]
    rcases List.mem_cons.1 hmem with rfl | hmem2
    · have hrest : (l.map cnt).sum = 0 := by
        apply sum_eq_zero_nat
        intro n hn
        obtain ⟨x, hxmem, rfl⟩ := List.mem_map.1 hn
        apply hz x (List.mem_cons_of_mem _ hxmem)
        intro hcontra
        apply (List.nodup_cons.1 hnd).1
        rw [← hcontra]
        exact List.mem_map_of_mem Prod.fst hxmem
      rw [hrest]
      omega
    · have ha : a.1 ≠ x0.1 := by
        intro hcontra
        apply (List.nodup_cons.1 hnd).1
        rw [hcontra]
        exact List.mem_map_of_mem Prod.fst hmem2
      rw [hz a (List.mem_cons_self a l) ha,
        ih (List.nodup_cons.1 hnd).2 hmem2
          (fun x hx hne => hz x (List.mem_cons_of_mem a hx) hne)]
      omega

theorem countP_genOfForce_zero_surface (vv : Json × Json → Json) (f0 p0 s0 s f : String)
    (fs : ForceSpec) (hs : s ≠ s0) :
    (genOfForce vv s f fs).countP (tripleMatch f0 p0 s0) = 0 := by
  rw [List.countP_eq_zero]
  intro smp hsmp
  rw [genOfForce] at hsmp
  rcases List.mem_append.1 hsmp with hmem | hmem <;>
  · obtain ⟨e, he, rfl⟩ := List.mem_map.1 hmem
    simp [tripleMatch, beq_false_of_ne hs]

theorem countP_genOfForce_zero_force (vv : Json × Json → Json) (f0 p0 s0 s f : String)
    (fs : ForceSpec) (hf : f ≠ f0) :
    (genOfForce vv s f fs).countP (tripleMatch f0 p0 s0) = 0 := by
  rw [List.countP_eq_zero]
  intro smp hsmp
  rw [genOfForce] at hsmp
  rcases List.mem_append.1 hsmp with hmem | hmem <;>
  · obtain ⟨e, he, rfl⟩ := List.mem_map.1 hmem
    simp [tripleMatch, beq_false_of_ne hf]

theorem countP_genOfForce_eq (vv : Json × Json → Json) (f0 p0 s0 : String) (fs : ForceSpec)
    (hp : (fs.fluids s0 ++ fs.items s0).countP (fun e => e.1 == p0) = 1) :
    (genOfForce vv s0 f0 fs).countP (tripleMatch f0 p0 s0) = 1 := by
  rw [genOfForce, List.countP_append, List.countP_map, List.countP_map]
  rw [List.countP_append] at hp
  have h1 : ∀ (ty : String) (l : List (String × Json × Json)),
      List.countP (tripleMatch f0 p0 s0 ∘ fun e => ([f0, e.1, s0, ty], vv e.2)) l =
      List.countP (fun e => e.1 == p0) l := by
    intro ty l
    apply List.countP_congr
    intro e he
    simp [tripleMatch, Function.comp]
  rw [h1, h1]
  exact hp

theorem countP_genOfSurface_zero (vv : Json × Json → Json) (f0 p0 s0 s : String)
    (forces : List (String × ForceSpec)) (hs : s ≠ s0) :
    (genOfSurface vv forces s).countP (tripleMatch f0 p0 s0) = 0 := by
  rw [genOfSurface, List.countP_flatten, List.map_map]
  apply sum_eq_zero_nat
  intro x hx
  obtain ⟨fp, hfp, rfl⟩ := List.mem_map.1 hx
  exact countP_genOfForce_zero_surface vv f0 p0 s0 s fp.1 fp.2 hs

theorem countP_genOfSurface_eq (vv : Json × Json → Json) (f0 p0 s0 : String)
    (forces : List (String × ForceSpec)) (fs0 : ForceSpec)
    (hnd : (forces.map Prod.fst).Nodup) (hf : (f0, fs0) ∈ forces)
    (hp : (fs0.fluids s0 ++ fs0.items s0).countP (fun e => e.1 == p0) = 1) :
    (genOfSurface vv forces s0).countP (tripleMatch f0 p0 s0) = 1 := by
  rw [genOfSurface, List.countP_flatten, List.map_map]
  rw [show List.map (List.countP (tripleMatch f0 p0 s0) ∘
        fun fp : String × ForceSpec => genOfForce vv s0 fp.1 fp.2) forces =
      forces.map (fun fp =>
        List.countP (tripleMatch f0 p0 s0) (genOfForce vv s0 fp.1 fp.2)) from rfl]
  rw [map_sum_single_pair
      (fun fp => List.countP (tripleMatch f0 p0 s0) (genOfForce vv s0 fp.1 fp.2))
      (f0, fs0) forces hnd hf
      (fun x _ hne => countP_genOfForce_zero_force vv f0 p0 s0 s0 x.1 x.2 hne)]
  exact countP_genOfForce_eq vv f0 p0 s0 fs0 hp

theorem countP_force_samples (vv : Json × Json → Json) (keys : List String)
    (forces : List (String × ForceSpec)) (f0 p0 s0 : String) (fs0 : ForceSpec)
    (hkeys : keys.Nodup) (hnd : (forces.map Prod.fst).Nodup)
    (hs : s0 ∈ keys) (hf : (f0, fs0) ∈ forces)
    (hp : (fs0.fluids s0 ++ fs0.items s0).countP (fun e => e.1 == p0) = 1) :
    ((keys.map (genOfSurface vv forces)).flatten).countP (tripleMatch f0 p0 s0) = 1 := by
  rw [List.countP_flatten, List.map_map]
  rw [show List.map (List.countP (tripleMatch f0 p0 s0) ∘ genOfSurface vv forces) keys =
      keys.map (fun s =>
        List.countP (tripleMatch f0 p0 s0) (genOfSurface vv forces s)) from rfl]
  rw [map_sum_single_key
      (fun s => List.countP (tripleMatch f0 p0 s0) (genOfSurface vv forces s))
      s0 keys hkeys hs
      (fun s _ hne => countP_genOfSurface_zero vv f0 p0 s0 s forces hne)]
  exact countP_genOfSurface_eq vv f0 p0 s0 forces fs0 hnd hf hp

end Factorio

namespace Factorio

/-- Every counter sample of a structured force snapshot is a four-value
label tuple whose type label is `fluids` or `items` — never `research`. -/
theorem mem_gen_samples_shape (vv : Json × Json → Json) (keys : List String)
    (forces : List (String × ForceSpec)) :
    ∀ smp ∈ (keys.map (genOfSurface vv forces)).flatten,
      ∃ fv pv sv tv v, smp = ([fv, pv, sv, tv], v) ∧ (tv = "fluids" ∨ tv = "items") := by
  intro smp hsmp
  obtain ⟨l, hl, hmem⟩ := List.mem_flatten.1 hsmp
  obtain ⟨s, hskey, rfl⟩ := List.mem_map.1 hl
  rw [genOfSurface] at hmem
  obtain ⟨l2, hl2, hmem2⟩ := List.mem_flatten.1 hmem
  obtain ⟨fp, hfp, rfl⟩ := List.mem_map.1 hl2
  rw [genOfForce] at hmem2
  rcases List.mem_append.1 hmem2 with hm | hm
  · obtain ⟨e, he, rfl⟩ := List.mem_map.1 hm
    exact ⟨fp.1, e.1, s, "fluids", vv e.2, rfl, Or.inl rfl⟩
  · obtain ⟨e, he, rfl⟩ := List.mem_map.1 hm
    exact ⟨fp.1, e.1, s, "items", vv e.2, rfl, Or.inr rfl⟩

/-- Every research sample of a structured force snapshot carries the force
name as its single label value. -/
theorem mem_res_samples_shape (keys : List String) (forces : List (String × ForceSpec)) :
    ∀ smp ∈ (keys.map (resOfSurface forces)).flatten, ∃ fv v, smp = ([fv], v) := by
  intro smp hsmp
  obtain ⟨l, hl, hmem⟩ := List.mem_flatten.1 hsmp
  obtain ⟨s, hskey, rfl⟩ := List.mem_map.1 hl
  rw [resOfSurface] at hmem
  obtain ⟨fp, hfp, rfl⟩ := List.mem_map.1 hmem
  exact ⟨fp.1, fp.2.research, rfl⟩

/-- Closed form of the player translator on a well-formed players map. -/
theorem collectPlayerStateMetrics_mk (d : Json) (entries : List (String × Bool))
    (h : d.index "players" = Except.ok (mkPlayers entries)) :
    collectPlayerStateMetrics d = Except.ok
      [{ name := "factorio_player_connected"
         kind := MetricKind.gauge
         labels := ["username"]
         samples := playerSamples entries }] := by
  rw [collectPlayerStateMetrics, h, ok_bind]
  have hent : (mkPlayers entries).entries = Except.ok
      (entries.map (fun e => (e.1, Json.obj [("connected", Json.bool e.2)]))) := rfl
  rw [hent, ok_bind]
  rw [exMapM_map
      (fun e : String × Json => do
        let connected ← e.2.index "connected"
        let v ← connected.pyInt
        pure ([e.1], v))
      (fun e : String × Bool => (e.1, Json.obj [("connected", Json.bool e.2)]))
      (fun e : String × Bool => ([e.1], Json.num (if e.2 then 1 else 0)))
      entries (fun x _ => rfl), ok_bind]
  rfl

end Factorio

namespace Factorio

/-! ## The claims -/

/-- Claim C1, counterexample: with a previously loaded complete snapshot in
`metrics_data`, a scrape whose file read fails (`FileNotFoundError`) yields
the health gauge at value 1 first — but then twelve families in total and no
early return, refuting "exactly one sample and no other samples". -/
theorem C1_counterexample :
    ((collect { metricsData := completeSnapshot } ReadResult.notFound).2.1).length = 12 ∧
    (collect { metricsData := completeSnapshot } ReadResult.notFound).2.1.head? =
      some (getExporterErrorMetric false) ∧
    (collect { metricsData := completeSnapshot } ReadResult.notFound).2.2 = none :=
  ⟨rfl, rfl, rfl⟩

/-- Claim C1, amended: on every failed acquisition (missing file, permission
denied, malformed JSON) `collect` yields the `factorio_exporter_error` gauge
with value 1 first and then, instead of returning early, translates the
previously stored snapshot data, yielding whatever families that translation
produces and aborting with its exception if it raises. -/
theorem C1_failure_scrape (st : CollectorState) :
    (getExporterErrorMetric false).samples = [([], Json.num 1)] ∧
    collect st ReadResult.notFound =
      (st, getExporterErrorMetric false :: (runGroups st.metricsData).1,
        (runGroups st.metricsData).2) ∧
    collect st ReadResult.permissionDenied =
      (st, getExporterErrorMetric false :: (runGroups st.metricsData).1,
        (runGroups st.metricsData).2) ∧
    collect st ReadResult.malformed =
      (st, getExporterErrorMetric false :: (runGroups st.metricsData).1,
        (runGroups st.metricsData).2) :=
  ⟨rfl, rfl, rfl, rfl⟩

/-- Claim C2, counterexample: on a snapshot lacking the `players` key whose
other groups are all well-formed, the scrape stops at the player group with
a `KeyError`: only the time family is produced, although the rocket group
alone would have succeeded on this very snapshot. -/
theorem C2_counterexample :
    runGroups noPlayersSnapshot =
      ([{ name := "factorio_game_tick", kind := MetricKind.gauge, labels := [],
          samples := [([], Json.num 5)] }], some (PyErr.keyError "players")) ∧
    collectRocketMetrics noPlayersSnapshot = Except.ok
      [{ name := "factorio_rockets_launched", kind := MetricKind.gauge,
         labels := ["force"], samples := [(["player"], Json.num 1)] },
       { name := "factorio_items_launched", kind := MetricKind.gauge,
         labels := ["force", "name"], samples := [] }] :=
  ⟨rfl, rfl⟩

/-- Claim C2, amended: for every snapshot lacking the `players` key, no
`factorio_player_connected` family is produced, but the missing key does not
leave the other groups intact: the `KeyError` aborts the scrape, so exactly
the families of the time group (which runs before the player group) are
yielded and every later group is skipped. -/
theorem C2_missing_players_aborts (d : Json) (tickFams : List MetricFamily)
    (hplayers : d.index "players" = Except.error (PyErr.keyError "players"))
    (htime : collectTimeMetrics d = Except.ok tickFams) :
    runGroups d = (tickFams, some (PyErr.keyError "players")) := by
  have hp : collectPlayerStateMetrics d = Except.error (PyErr.keyError "players") := by
    rw [collectPlayerStateMetrics, hplayers, error_bind]
  simp only [runGroups, groupCollectors, runGroupsAux, htime, hp, List.append_nil]

/-- Witness for the amended claim C2 at the concrete `noPlayersSnapshot`. -/
theorem C2_witness :
    runGroups noPlayersSnapshot =
      ([{ name := "factorio_game_tick", kind := MetricKind.gauge, labels := [],
          samples := [([], Json.num 5)] }], some (PyErr.keyError "players")) :=
  C2_missing_players_aborts noPlayersSnapshot
    [{ name := "factorio_game_tick", kind := MetricKind.gauge, labels := [],
       samples := [([], Json.num 5)] }] rfl rfl

/-- Claim C3, counterexample: the round-trip snapshot of the spec does not
produce a clean scrape: the rocket group raises `KeyError` on the missing
`player` force, so no rocket families appear and the scrape aborts instead
of ending with a complete sample set. -/
theorem C3_counterexample :
    (collect initState (ReadResult.ok roundTripSnapshot)).2.2 =
      some (PyErr.keyError "player") ∧
    ((collect initState (ReadResult.ok roundTripSnapshot)).2.1).map MetricFamily.name =
      ["factorio_exporter_error", "factorio_game_tick", "factorio_player_connected",
       "factorio_force_prototype_consumption", "factorio_force_prototype_production",
       "factorio_force_research_progress", "factorio_pollution_production",
       "factorio_surface_pollution_total", "factorio_surface_ticks_per_day",
       "factorio_entity_count"] :=
  ⟨rfl, rfl⟩

/-- Claim C3, amended: reading the round-trip snapshot succeeds, so the
scrape yields `factorio_exporter_error 0` first, then `factorio_game_tick
42` and empty player / force / pollution / surface / entity families — and
then aborts in the rocket group with `KeyError` on the absent `player`
force, never yielding the rocket families. -/
theorem C3_roundtrip_aborts :
    collect initState (ReadResult.ok roundTripSnapshot) =
      ({ metricsData := roundTripSnapshot },
       [getExporterErrorMetric true,
        { name := "factorio_game_tick", kind := MetricKind.gauge, labels := [],
          samples := [([], Json.num 42)] },
        { name := "factorio_player_connected", kind := MetricKind.gauge,
          labels := ["username"], samples := [] },
        { name := "factorio_force_prototype_consumption", kind := MetricKind.counter,
          labels := ["force", "prototype", "surface", "type"], samples := [] },
        { name := "factorio_force_prototype_production", kind := MetricKind.counter,
          labels := ["force", "prototype", "surface", "type"], samples := [] },
        { name := "factorio_force_research_progress", kind := MetricKind.gauge,
          labels := ["force"], samples := [] },
        { name := "factorio_pollution_production", kind := MetricKind.gauge,
          labels := ["source", "surface"], samples := [] },
        { name := "factorio_surface_pollution_total", kind := MetricKind.gauge,
          labels := ["surface"], samples := [] },
        { name := "factorio_surface_ticks_per_day", kind := MetricKind.gauge,
          labels := ["surface"], samples := [] },
        { name := "factorio_entity_count", kind := MetricKind.gauge,
          labels := ["force", "name", "surface"], samples := [] }],
       some (PyErr.keyError "player")) := rfl

end Factorio

namespace Factorio

/-- Claim C4, counterexample: the `(player, nauvis, iron-plate)` triple is
present in the snapshot's force data, yet the force translator emits zero
samples to both counter families, because the surface loop iterates the
top-level `surfaces` map, which is empty here — refuting "exactly one sample
per triple present in the force data". -/
theorem C4_counterexample :
    collectForceMetrics c4Snapshot = Except.ok
      [{ name := "factorio_force_prototype_consumption", kind := MetricKind.counter,
         labels := ["force", "prototype", "surface", "type"], samples := [] },
       { name := "factorio_force_prototype_production", kind := MetricKind.counter,
         labels := ["force", "prototype", "surface", "type"], samples := [] },
       { name := "factorio_force_research_progress", kind := MetricKind.gauge,
         labels := ["force"], samples := [] }] := rfl

/-- Claim C4, amended: for every (force, surface, prototype) triple whose
surface is additionally a key of the snapshot's top-level `surfaces` map and
whose prototype occurs exactly once under that force's `fluids`/`items` maps
for that surface, the force translator emits exactly one sample to the
consumption counter family and exactly one to the production counter family,
labelled (force, prototype, surface, type with type ∈ {fluids, items});
research entries are routed to the single-label `(force)` research gauge
family — once per surface iteration — and never to the counter families. -/
theorem C4_triple_counted_once (keys : List String) (forces : List (String × ForceSpec))
    (f0 p0 s0 : String) (fs0 : ForceSpec)
    (hkeys : keys.Nodup) (hforces : (forces.map Prod.fst).Nodup)
    (hs : s0 ∈ keys) (hf : (f0, fs0) ∈ forces)
    (hp : (fs0.fluids s0 ++ fs0.items s0).countP (fun e => e.1 == p0) = 1) :
    forceTranslationOk keys forces f0 p0 s0 := by
  refine ⟨_, _, _, collectForceMetrics_mk keys forces,
    rfl, rfl, rfl, rfl, rfl, rfl, ?_, ?_, rfl, ?_, ?_, ?_⟩
  · exact countP_force_samples Prod.fst keys forces f0 p0 s0 fs0 hkeys hforces hs hf hp
  · exact countP_force_samples Prod.snd keys forces f0 p0 s0 fs0 hkeys hforces hs hf hp
  · exact mem_res_samples_shape keys forces
  · exact mem_gen_samples_shape Prod.fst keys forces
  · exact mem_gen_samples_shape Prod.snd keys forces

/-- Witness for the amended claim C4: one surface `nauvis`, one force
`player` with one fluid prototype `iron-plate`. -/
theorem C4_witness :
    ["nauvis"].Nodup ∧
    (([("player", witnessForce)].map Prod.fst).Nodup) ∧
    "nauvis" ∈ ["nauvis"] ∧
    ("player", witnessForce) ∈ [("player", witnessForce)] ∧
    ((witnessForce.fluids "nauvis" ++ witnessForce.items "nauvis").countP
      (fun e => e.1 == "iron-plate") = 1) ∧
    forceTranslationOk ["nauvis"] [("player", witnessForce)] "player" "iron-plate" "nauvis" :=
  ⟨by decide, by decide, by decide, List.mem_singleton.mpr rfl, by decide,
   C4_triple_counted_once ["nauvis"] [("player", witnessForce)] "player" "iron-plate"
     "nauvis" witnessForce (by decide) (by decide) (by decide)
     (List.mem_singleton.mpr rfl) (by decide)⟩

end Factorio

namespace Factorio

/-- Claim C5: for every scrape of the monolithic collector and every family
it yields (the health gauge included, whatever the read result and stored
data), each emitted sample carries exactly as many label values as the
family declares label keys — and the label values are positional, so their
ordering is the declared key ordering; the same holds for every family the
grouped time collector yields, complete or aborted partway. -/
theorem C5_label_arity (st : CollectorState) (r : ReadResult) (m : Json) :
    (∀ fam ∈ (collect st r).2.1, ∀ smp ∈ fam.samples,
      smp.1.length = fam.labels.length) ∧
    (∀ fam ∈ (timeCollect m).1, ∀ smp ∈ fam.samples,
      smp.1.length = fam.labels.length) := by
  constructor
  · intro fam hfam
    rcases List.mem_cons.1
        (show fam ∈ getExporterErrorMetric (loadMetricsData st r).2 ::
          (runGroups (loadMetricsData st r).1.metricsData).1 from hfam)
      with rfl | hfam2
    · exact getExporterErrorMetric_arity _
    · exact runGroupsAux_arity _ groupCollectors groupCollectors_arity fam hfam2
  · exact timeCollect_arity m

/-- Witness for claim C5 at a successful concrete scrape: the health gauge's
single sample has zero label values, matching its empty label list. -/
theorem C5_witness :
    ([] : List String).length = (getExporterErrorMetric true).labels.length :=
  (C5_label_arity initState (ReadResult.ok completeSnapshot) (Json.obj [])).1
    (getExporterErrorMetric true)
    (show getExporterErrorMetric true ∈
        (collect initState (ReadResult.ok completeSnapshot)).2.1 from
      List.mem_cons_self _ _)
    ([], Json.num 0)
    (List.mem_singleton.mpr rfl)

/-- Claim C6: for every snapshot whose `players` entry is a map of usernames
to connection states, the player translator emits one
`factorio_player_connected` sample per username in the map, labelled by that
username and valued 1 when connected and 0 when not, and it emits no sample
for any username absent from the map. -/
theorem C6_player_samples (d : Json) (entries : List (String × Bool))
    (h : d.index "players" = Except.ok (mkPlayers entries)) :
    collectPlayerStateMetrics d = Except.ok
      [{ name := "factorio_player_connected"
         kind := MetricKind.gauge
         labels := ["username"]
         samples := playerSamples entries }] ∧
    (∀ u c, (u, c) ∈ entries →
      ([u], Json.num (if c then 1 else 0)) ∈ playerSamples entries) ∧
    (∀ u, u ∉ entries.map Prod.fst → ∀ v, ([u], v) ∉ playerSamples entries) := by
  refine ⟨collectPlayerStateMetrics_mk d entries h, ?_, ?_⟩
  · intro u c hmem
    exact List.mem_map_of_mem _ hmem
  · intro u hu v hmem
    rw [playerSamples] at hmem
    obtain ⟨e, he, heq⟩ := List.mem_map.1 hmem
    apply hu
    injection heq with h1 h2
    injection h1 with h3 h4
    rw [← h3]
    exact List.mem_map_of_mem Prod.fst he

/-- Witness for claim C6 at a one-player map. -/
theorem C6_witness :
    collectPlayerStateMetrics (Json.obj [("players", mkPlayers [("alice", true)])]) =
      Except.ok
        [{ name := "factorio_player_connected"
           kind := MetricKind.gauge
           labels := ["username"]
           samples := playerSamples [("alice", true)] }] :=
  (C6_player_samples (Json.obj [("players", mkPlayers [("alice", true)])])
    [("alice", true)] rfl).1

/-- Claim C7: after any hot-reload transition, including the synthetic one
`FactorioCommander.__init__` performs at startup, the command string is the
literal `/silent-command ` followed by the watched file's full text, and it
is never empty. -/
theorem C7_command_rebuild (c : Commander) (t t1 t2 : String) :
    (onModified c t).command = "/silent-command " ++ t ∧
    (onModified c t).command ≠ "" ∧
    (initCommander t1 t2).command = "/silent-command " ++ t2 ∧
    (initCommander t1 t2).command ≠ "" := by
  have h16 : ("/silent-command " : String).length = 16 := rfl
  have h0 : ("" : String).length = 0 := rfl
  refine ⟨rfl, ?_, rfl, ?_⟩
  · intro hcontra
    have hlen := congrArg String.length hcontra
    rw [show (onModified c t).command = "/silent-command " ++ t from rfl,
      String.length_append, h16, h0] at hlen
    omega
  · intro hcontra
    have hlen := congrArg String.length hcontra
    rw [show (initCommander t1 t2).command = "/silent-command " ++ t2 from rfl,
      String.length_append, h16, h0] at hlen
    omega

/-- Claim C8 evaluated on the code: the default autopause interval really is
100 milliseconds (100000 microseconds), yet `run` sleeps
`interval.seconds = 0` seconds between sends, and a send that raises
terminates the loop — later sends in the trace never happen. -/
theorem C8_pacer_behaviour :
    autopauserDefaultInterval.microseconds = 100000 ∧
    pacerSleepSeconds autopauserDefaultInterval = 0 ∧
    pacerSendsBeforeExit [SendOutcome.ok, SendOutcome.raised, SendOutcome.ok] = (2, true) :=
  ⟨rfl, rfl, rfl⟩

/-- Claim C9: every failed load (missing file, permission denied, malformed
JSON) leaves the stored `metrics_data` untouched — initially the empty
document — so the following translation runs on the previous snapshot's
data. -/
theorem C9_failed_load_keeps_state (st : CollectorState) :
    loadMetricsData st ReadResult.notFound = (st, false) ∧
    loadMetricsData st ReadResult.permissionDenied = (st, false) ∧
    loadMetricsData st ReadResult.malformed = (st, false) ∧
    initState.metricsData = Json.obj [] ∧
    (collect st ReadResult.notFound).2.1 =
      getExporterErrorMetric false :: (runGroups st.metricsData).1 ∧
    (collect st ReadResult.permissionDenied).2.1 =
      getExporterErrorMetric false :: (runGroups st.metricsData).1 ∧
    (collect st ReadResult.malformed).2.1 =
      getExporterErrorMetric false :: (runGroups st.metricsData).1 :=
  ⟨rfl, rfl, rfl, rfl, rfl, rfl, rfl⟩

/-- Claim C10: every entity-count and rocket sample of the monolithic
translator carries the hard-coded `player` force label value regardless of
the snapshot's forces, and the rocket group reads only the `player` entry of
the forces map — when it is absent the group raises `KeyError` instead. -/
theorem C10_hardcoded_player_force :
    (∀ (d : Json) (fams : List MetricFamily), collectEntityMetrics d = Except.ok fams →
      ∀ fam ∈ fams, ∀ smp ∈ fam.samples, smp.1.head? = some "player") ∧
    (∀ (d : Json) (fams : List MetricFamily), collectRocketMetrics d = Except.ok fams →
      ∀ fam ∈ fams, ∀ smp ∈ fam.samples, smp.1.head? = some "player") ∧
    (∀ (d : Json) (fields : List (String × Json)),
      d.index "forces" = Except.ok (Json.obj fields) →
      fields.lookup "player" = none →
      collectRocketMetrics d = Except.error (PyErr.keyError "player")) :=
  ⟨fun _ _ h => collectEntityMetrics_player h,
   fun _ _ h => collectRocketMetrics_player h,
   fun _ _ h1 h2 => collectRocketMetrics_no_player h1 h2⟩

/-- Witness for claim C10: a forces map with `enemy` only makes the rocket
group fail with the `player` key error. -/
theorem C10_witness :
    collectRocketMetrics noPlayerForceSnapshot = Except.error (PyErr.keyError "player") :=
  C10_hardcoded_player_force.2.2 noPlayerForceSnapshot [("enemy", Json.obj [])] rfl rfl

end Factorio
